import Mathlib

/-!
Verification development for the provider-research-system repository.

The Python sources are shallowly embedded: dictionaries become structures
with optional fields, floats become exact rationals, SQL tables become
lists of rows, and external effects (HTTP fetches, language-model calls,
the Postgres full-text engine, the difflib similarity metric) become
explicit function parameters.  Every embedded definition mirrors one
source function and keeps its name (minus a leading underscore).
-/

set_option maxRecDepth 10000

/-! ## Generic string helpers (Python semantics on ASCII text) -/

/-- Python word character class `\w` for ASCII text. -/
def asciiWord (c : Char) : Bool := c.isAlphanum || c = '_'

/-- Python whitespace class `\s` for the characters that occur in this code base. -/
def isSpaceChar (c : Char) : Bool :=
  c = ' ' || c = '\t' || c = '\n' || c = '\r' || c = '\u000B' || c = '\u000C'

/-- Word-ness of an optional previous character (absent counts as non-word). -/
def isWordOpt : Option Char → Bool
  | none => false
  | some c => asciiWord c

/-- Python substring containment on character lists. -/
def containsSub (nd : List Char) : List Char → Bool
  | [] => nd.isEmpty
  | hay@(_ :: t) => nd.isPrefixOf hay || containsSub nd t

/-- Python `sub in hay` on strings. -/
def strIn (sub hay : String) : Bool := containsSub sub.data hay.data

/-- Python `re.sub(r'[^\d]', '', s)`: keep only digits. -/
def digitsOf (s : String) : String := ⟨s.data.filter Char.isDigit⟩

/-- Python `s.lower()` via a structural character map (kernel-computable,
unlike the position-recursive core version). -/
def lowerStr (s : String) : String := ⟨s.data.map Char.toLower⟩

/-- Python `s.replace(a, b)` for single characters. -/
def replaceChar (a b : Char) (s : String) : String :=
  ⟨s.data.map (fun c => if c = a then b else c)⟩

/-- Whitespace-word accumulator for `pySplit`. -/
def wordsGo : List Char → List Char → List (List Char)
  | acc, [] => if acc.isEmpty then [] else [acc.reverse]
  | acc, c :: t =>
    if isSpaceChar c then
      if acc.isEmpty then wordsGo [] t else acc.reverse :: wordsGo [] t
    else wordsGo (c :: acc) t

/-- Join character words with one separator character. -/
def joinSpaceGo : List (List Char) → List Char
  | [] => []
  | [w] => w
  | w :: ws => w ++ ' ' :: joinSpaceGo ws

/-- Python `s.split(sep)` for a single-character separator (keeps empties). -/
def splitOnCharGo (sep : Char) : List Char → List Char → List (List Char)
  | acc, [] => [acc.reverse]
  | acc, c :: t =>
    if c = sep then acc.reverse :: splitOnCharGo sep [] t
    else splitOnCharGo sep (c :: acc) t

/-- Python `s.split(',')`-style split on one character. -/
def splitOnChar (sep : Char) (s : String) : List String :=
  (splitOnCharGo sep [] s.data).map (⟨·⟩)

/-- Join strings with a separator string (structural `'sep'.join`). -/
def joinWithGo (sep : List Char) : List (List Char) → List Char
  | [] => []
  | [w] => w
  | w :: ws => w ++ sep ++ joinWithGo sep ws

/-- `sep.join(parts)`. -/
def joinWith (sep : String) (parts : List String) : String :=
  ⟨joinWithGo sep.data (parts.map String.data)⟩

/-- Python `s.split()` (split on whitespace runs, dropping empties). -/
def pySplit (s : String) : List String := (wordsGo [] s.data).map (⟨·⟩)

/-- Python `' '.join(s.split())`; also models `re.sub(r'\s+', ' ', s).strip()`. -/
def pyJoinWords (s : String) : String := ⟨joinSpaceGo (wordsGo [] s.data)⟩

/-- Python truthiness of an optional string (absent and empty are falsy). -/
def truthy : Option String → Bool
  | none => false
  | some s => !s.isEmpty

/-- Python `a or b` on optional strings. -/
def pyOr (a b : Option String) : Option String := if truthy a then a else b

/-- Python `str.title()` for ASCII text: uppercase each letter that follows
a non-letter, lowercase the other letters. -/
def titleCaseGo : Bool → List Char → List Char
  | _, [] => []
  | prevAlpha, c :: t =>
    (if c.isAlpha then (if prevAlpha then c.toLower else c.toUpper) else c) ::
      titleCaseGo c.isAlpha t

/-- Python `s.title()`. -/
def titleCase (s : String) : String := ⟨titleCaseGo false s.data⟩

/-- One left-to-right pass replacing every `\b w \b` occurrence of the word `w`
by `repl`, continuing after each replacement (Python `re.sub` semantics; `w`
starts and ends with word characters). -/
def replaceWordGo (w repl : List Char) : Nat → Option Char → List Char → List Char
  | 0, _, s => s
  | _ + 1, _, [] => []
  | fuel + 1, prev, c :: t =>
    if w.isPrefixOf (c :: t) && !isWordOpt prev && !isWordOpt ((c :: t).drop w.length).head? then
      repl ++ replaceWordGo w repl fuel ((c :: t).take w.length).getLast? ((c :: t).drop w.length)
    else
      c :: replaceWordGo w repl fuel (some c) t

/-- Python `re.sub(r'\b' + w + r'\b', repl, s)` for a word `w` made of word characters. -/
def replaceWord (w repl s : String) : String :=
  ⟨replaceWordGo w.data repl.data s.data.length none s.data⟩

/-! ## Web researcher (provider_web_researcher.py) -/

/-- One provider record / candidate-location dictionary.  Each field is one
dictionary key used somewhere in the sources; absent keys are `none`. -/
structure ProviderRec where
  id : Option String := none
  npi : Option String := none
  name : Option String := none
  legal_name : Option String := none
  dba_names : List String := []
  parent_organization : Option String := none
  address : Option String := none
  address_full : Option String := none
  city : Option String := none
  address_city : Option String := none
  state : Option String := none
  address_state : Option String := none
  zip : Option String := none
  phone : Option String := none
  website : Option String := none
  franchise_id : Option String := none
  location : Option String := none
  deriving Repr, DecidableEq

/-- `DeduplicationResult` dataclass. -/
structure DeduplicationResult where
  is_duplicate : Bool
  reason : String
  confidence : ℚ
  matching_provider_id : Option String
  deriving Repr, DecidableEq

/-- `_normalize_phone`: strip everything but digits. -/
def normalize_phone (phone : String) : String := digitsOf phone

/-- Length of a match of `(suite|ste|unit|#)\s*[\w\d-]+` with a preceding `\b`
at the head of `s`, if any (alternatives tried in source order). -/
def dedupTokenMatchLen (prev : Option Char) (s : List Char) : Option Nat :=
  let tryKw : String → Option Nat := fun kw =>
    let kwc := kw.data
    if kwc.isPrefixOf s && (isWordOpt prev != isWordOpt kwc.head?) then
      let rest := s.drop kwc.length
      let wsN := (rest.takeWhile isSpaceChar).length
      let runN := ((rest.drop wsN).takeWhile (fun c => asciiWord c || c = '-')).length
      if runN = 0 then none else some (kwc.length + wsN + runN)
    else none
  (tryKw "suite") <|> (tryKw "ste") <|> (tryKw "unit") <|> (tryKw "#")

/-- Left-to-right removal of every `\b(suite|ste|unit|#)\s*[\w\d-]+` match
(Python `re.sub` with empty replacement). -/
def stripDedupTokensGo : Nat → Option Char → List Char → List Char
  | 0, _, s => s
  | _ + 1, _, [] => []
  | fuel + 1, prev, c :: t =>
    match dedupTokenMatchLen prev (c :: t) with
    | some k => stripDedupTokensGo fuel ((c :: t).take k).getLast? ((c :: t).drop k)
    | none => c :: stripDedupTokensGo fuel (some c) t

/-- `_normalize_address` (web researcher): lowercase, remove suite/unit
tokens, collapse whitespace. -/
def normalize_address (address : String) : String :=
  let addr := lowerStr address
  let addr : String := ⟨stripDedupTokensGo addr.data.length none addr.data⟩
  pyJoinWords addr

/-- Rule-based duplicate detection `_rule_based_deduplication`: phone, then
NPI, then address, then different-city; `none` means "need LLM for edge cases". -/
def rule_based_deduplication (new existing : ProviderRec) : Option DeduplicationResult :=
  let new_phone := normalize_phone (new.phone.getD "")
  let existing_phone := normalize_phone (existing.phone.getD "")
  if new_phone ≠ "" && existing_phone ≠ "" && new_phone = existing_phone then
    some ⟨true, "Same phone number", mkRat 95 100, existing.id⟩
  else if truthy new.npi && new.npi = existing.npi then
    some ⟨true, "Same NPI", 1, existing.id⟩
  else
    let new_addr := normalize_address (new.address.getD "")
    let existing_addr := normalize_address (existing.address_full.getD "")
    if new_addr ≠ "" && existing_addr ≠ "" && new_addr = existing_addr then
      some ⟨true, "Same address", mkRat 9 10, existing.id⟩
    else if truthy new.city && truthy existing.address_city &&
        lowerStr (new.city.getD "") ≠ lowerStr (existing.address_city.getD "") then
      some ⟨false, "Different cities", mkRat 9 10, none⟩
    else
      none

/-- Shape of a parsed LLM deduplication judgment (the model boundary). -/
structure LlmDedupJudgment where
  is_duplicate : Bool
  reason : String
  confidence : ℚ
  deriving Repr, DecidableEq

/-- `_llm_deduplication` after the LLM call is abstracted into a judgment function. -/
def llm_deduplication (judge : ProviderRec → ProviderRec → LlmDedupJudgment)
    (new existing : ProviderRec) : DeduplicationResult :=
  let d := judge new existing
  ⟨d.is_duplicate, d.reason, d.confidence, if d.is_duplicate then existing.id else none⟩

/-- `_simulate_deduplication`: default to not duplicate. -/
def simulate_deduplication (_new _existing : ProviderRec) : DeduplicationResult :=
  ⟨false, "Different providers based on available data", mkRat 7 10, none⟩

/-- `check_duplicate`: rule-based first, then LLM (if a client is wired) or simulation. -/
def check_duplicate (judge : Option (ProviderRec → ProviderRec → LlmDedupJudgment))
    (new existing : ProviderRec) : DeduplicationResult :=
  match rule_based_deduplication new existing with
  | some r => r
  | none =>
    match judge with
    | some j => llm_deduplication j new existing
    | none => simulate_deduplication new existing

/-- `_deduplicate_locations`: drop locations whose normalized phone or
normalized address was already seen. -/
def deduplicateLocationsGo : List ProviderRec → List String → List String → List ProviderRec
  | [], _, _ => []
  | loc :: rest, seenPhones, seenAddresses =>
    let phone := normalize_phone (loc.phone.getD "")
    let address := normalize_address (loc.address.getD "")
    if phone ≠ "" && phone ∈ seenPhones then
      deduplicateLocationsGo rest seenPhones seenAddresses
    else if address ≠ "" && address ∈ seenAddresses then
      deduplicateLocationsGo rest seenPhones seenAddresses
    else
      loc :: deduplicateLocationsGo rest
        (if phone ≠ "" then seenPhones ++ [phone] else seenPhones)
        (if address ≠ "" then seenAddresses ++ [address] else seenAddresses)

/-- `_deduplicate_locations` entry point. -/
def deduplicate_locations (locations : List ProviderRec) : List ProviderRec :=
  deduplicateLocationsGo locations [] []

/-! ## Research LLM obvious-duplicate pass (provider_research/core/research_llm.py) -/

/-- Python `re.sub(r'#(\d)', r'unit \1', s)`. -/
def hashToUnit : List Char → List Char
  | [] => []
  | '#' :: d :: t =>
    if d.isDigit then 'u' :: 'n' :: 'i' :: 't' :: ' ' :: d :: hashToUnit t
    else '#' :: hashToUnit (d :: t)
  | c :: t => c :: hashToUnit t

/-- Address normalization inside `_find_obvious_duplicates`: lowercases and
canonicalizes suite/unit spellings but KEEPS the suite/unit numbers. -/
def obvious_normalize_address (address : String) : String :=
  let a := lowerStr address
  let a := replaceWord "suite" "ste" a
  let a := replaceWord "apartment" "apt" a
  let a : String := ⟨hashToUnit a.data⟩
  let a : String := ⟨a.data.map (fun c => if asciiWord c || isSpaceChar c then c else ' ')⟩
  pyJoinWords a

/-- Add to a set modelled as a duplicate-free list. -/
def setAdd (x : String) (s : List String) : List String := if x ∈ s then s else s ++ [x]

/-- Loop body of `_find_obvious_duplicates`; the index substitutes for the
Python object id used when a location has no `id` key. -/
def findObviousDuplicatesGo :
    List (Nat × ProviderRec) → List String → List String → List String → List String
  | [], dupes, _, _ => dupes
  | (i, loc) :: rest, dupes, seenPhones, seenAddresses =>
    let locId := loc.id.getD (toString i)
    let phone := digitsOf (loc.phone.getD "")
    let step1 :=
      if phone ≠ "" && phone.length ≥ 10 then
        if phone ∈ seenPhones then (setAdd locId dupes, seenPhones)
        else (dupes, seenPhones ++ [phone])
      else (dupes, seenPhones)
    let address := obvious_normalize_address (loc.address.getD "")
    let step2 :=
      if address ≠ "" && address.length > 10 then
        if address ∈ seenAddresses then (setAdd locId step1.1, seenAddresses)
        else (step1.1, seenAddresses ++ [address])
      else (step1.1, seenAddresses)
    findObviousDuplicatesGo rest step2.1 step1.2 step2.2

/-- `_find_obvious_duplicates`: ids of locations judged duplicates by the
rule-based pass of the research-LLM deduplication layer. -/
def find_obvious_duplicates (locations : List ProviderRec) : List String :=
  findObviousDuplicatesGo locations.enum [] [] []

/-! ## Web researcher research pipeline (provider_web_researcher.py) -/

/-- One NPI registry record as produced by `_validate_npi`. -/
structure NpiRecord where
  npi : String
  legal_name : Option String := none
  status : String := ""
  deriving Repr, DecidableEq

/-- One entry of `historical_data.previous_names`. -/
structure PrevName where
  name : String
  date : Option String := none
  ntype : String := ""
  notes : String := ""
  deriving Repr, DecidableEq

/-- One entry of `historical_data.previous_owners`. -/
structure PrevOwner where
  owner : String
  start_date : Option String := none
  end_date : Option String := none
  change_type : String := ""
  notes : String := ""
  deriving Repr, DecidableEq

/-- The `historical_data` dictionary. -/
structure HistoricalData where
  previous_names : List PrevName := []
  previous_owners : List PrevOwner := []
  company_history : Option String := none
  deriving Repr, DecidableEq

/-- `ResearchResult` dataclass (the wall-clock timestamp field is omitted). -/
structure ResearchResult where
  provider_name : String
  locations : List ProviderRec
  npi_records : List NpiRecord
  historical_data : HistoricalData
  confidence : ℚ
  source_urls : List String
  warnings : List String
  deriving Repr, DecidableEq

/-- The language-model boundary of the web researcher: the composition of
prompt building, `_call_llm` and response parsing for each extraction pass. -/
structure LlmWeb where
  extract : String → List ProviderRec
  historical : String → HistoricalData

/-- External dependencies of `ProviderWebResearcher`: optional LLM client,
optional web-search function, and the HTTP-or-simulated `_fetch_content`. -/
structure WebResearcherCfg where
  llm : Option LlmWeb := none
  web_search_fn : Option (String → List String) := none
  fetch : String → Option String := fun _ => none

/-- Python `s[:n]`. -/
def takeChars (n : Nat) (s : String) : String := ⟨s.data.take n⟩

/-- `_web_search`: call the injected search function, else return the two
simulated example URLs. -/
def web_search (cfg : WebResearcherCfg) (provider_name : String) (location : Option String) :
    List String :=
  match cfg.web_search_fn with
  | some f =>
    let query := provider_name ++ " healthcare"
    let query := if truthy location then query ++ " " ++ location.getD "" else query
    f query
  | none =>
    ["https://example.com/" ++ lowerStr (replaceChar ' ' '-' provider_name),
     "https://example.com/" ++ lowerStr (replaceChar ' ' '-' provider_name) ++ "/locations"]

/-- Greedy match of `\(?\d{3}\)?[\s.-]?\d{3}[\s.-]?\d{4}` at the head of `s`. -/
def phoneMatchAt (s : List Char) : Option (List Char) :=
  let optTake : (Char → Bool) → List Char → List Char × List Char := fun p l =>
    match l with
    | c :: t => if p c then ([c], t) else ([], l)
    | [] => ([], [])
  let isSep : Char → Bool := fun c => isSpaceChar c || c = '.' || c = '-'
  let takeDigits : Nat → List Char → Option (List Char × List Char) := fun n l =>
    if (l.take n).length = n && (l.take n).all Char.isDigit then some (l.take n, l.drop n)
    else none
  let (o1, r1) := optTake (· = '(') s
  match takeDigits 3 r1 with
  | none => none
  | some (d1, r2) =>
    let (o2, r3) := optTake (· = ')') r2
    let (s1, r4) := optTake isSep r3
    match takeDigits 3 r4 with
    | none => none
    | some (d2, r5) =>
      let (s2, r6) := optTake isSep r5
      match takeDigits 4 r6 with
      | none => none
      | some (d3, _) => some (o1 ++ d1 ++ o2 ++ s1 ++ d2 ++ s2 ++ d3)

/-- `re.search` scan for the phone pattern of `_simulate_extraction`. -/
def findPhoneGo : List Char → Option (List Char)
  | [] => none
  | s@(_ :: t) => phoneMatchAt s <|> findPhoneGo t

/-- `_simulate_extraction`: one fixed sample location with the phone lifted
from the content when the phone pattern matches. -/
def simulate_extraction (content : String) : List ProviderRec :=
  [{ name := some "Sample Provider"
     address := some "123 Main St"
     city := some "Boston"
     state := some "MA"
     zip := some "02101"
     phone := some (match findPhoneGo content.data with
       | some m => ⟨m⟩
       | none => "(617) 555-0100")
     website := some "https://example.com" }]

/-- `_extract_locations`: LLM extraction on the first 8000 characters, or the
simulated extraction. -/
def extract_locations (llm : Option LlmWeb) (content : String) : List ProviderRec :=
  match llm with
  | some L => L.extract (takeChars 8000 content)
  | none => simulate_extraction content

/-- `_simulate_historical_extraction`. -/
def simulate_historical_extraction (content : String) : HistoricalData :=
  let previous_names :=
    if strIn "formerly known as" (lowerStr content) || strIn "previously called" (lowerStr content) then
      [{ name := "ABC Home Services", date := some "2015", ntype := "legal_name",
         notes := "Found in company history" : PrevName }]
    else []
  let previous_owners :=
    if strIn "acquired by" (lowerStr content) then
      [{ owner := "National Care Partners", start_date := none, end_date := some "2020",
         change_type := "acquisition", notes := "Acquired in 2020" : PrevOwner }]
    else []
  { previous_names := previous_names, previous_owners := previous_owners, company_history := none }

/-- `_extract_historical_data`: combine the first three contents (5000 chars
each) and run the LLM pass or the simulation on the combined text. -/
def extract_historical_data (llm : Option LlmWeb) (contents : List String) : HistoricalData :=
  let combined := joinWith "\n\n---PAGE BREAK---\n\n"
    ((contents.take 3).map (takeChars 5000))
  match llm with
  | some L => L.historical combined
  | none => simulate_historical_extraction combined

/-- `_validate_npi`: the source simulates the registry call and always
returns this fixed record. -/
def validate_npi (location : ProviderRec) : Option NpiRecord :=
  some { npi := "1234567890", legal_name := location.name, status := "active" }

/-- `_calculate_confidence`: additive score 0.5 + 0.2 (locations) + 0.2 (NPI)
+ 0.1 (no warnings), capped at 1.0 (rationals written `mkRat` to keep the
kernel able to evaluate them). -/
def calculate_confidence (locations : List ProviderRec) (npi_records : List NpiRecord)
    (warnings : List String) : ℚ :=
  let score : ℚ := mkRat 5 10
  let score := if !locations.isEmpty then score + mkRat 2 10 else score
  let score := if !npi_records.isEmpty then score + mkRat 2 10 else score
  let score := if warnings.isEmpty then score + mkRat 1 10 else score
  min score 1

/-- `_empty_result`. -/
def empty_result (provider_name : String) (warnings : List String) : ResearchResult :=
  { provider_name := provider_name, locations := [], npi_records := []
    historical_data := ⟨[], [], none⟩, confidence := 0, source_urls := [], warnings := warnings }

/-- `research`: web search, fetch + extract over the first five URLs,
historical extraction, deduplication, NPI validation, confidence scoring. -/
def research (cfg : WebResearcherCfg) (provider_name : String)
    (location : Option String := none) (state : Option String := none) : ResearchResult :=
  let urls := web_search cfg provider_name (pyOr location state)
  if urls.isEmpty then empty_result provider_name ["No web results found"]
  else
    let contents := (urls.take 5).filterMap fun u =>
      match cfg.fetch u with
      | some c => if c.isEmpty then none else some c
      | none => none
    let locations := contents.flatMap (extract_locations cfg.llm)
    let warnings : List String :=
      if locations.isEmpty then ["Could not extract location data from web pages"] else []
    let historical_data :=
      if !contents.isEmpty then extract_historical_data cfg.llm contents
      else ⟨[], [], none⟩
    let locations := deduplicate_locations locations
    let npiStep := locations.map fun loc => (loc, validate_npi loc)
    let locations := npiStep.map fun p =>
      match p.2 with
      | some npi_data => { p.1 with npi := some npi_data.npi }
      | none => p.1
    let npi_records := npiStep.filterMap (·.2)
    let confidence := calculate_confidence locations npi_records warnings
    { provider_name := provider_name, locations := locations, npi_records := npi_records
      historical_data := historical_data, confidence := confidence
      source_urls := urls.take 5, warnings := warnings }

/-! ## Stable sorting helper (models Python `list.sort` / SQL `ORDER BY`) -/

/-- Insert `x` after every element that strictly precedes it (`lt y x`),
so that elements comparing equal keep their original order. -/
def insertSorted (lt : α → α → Bool) (x : α) : List α → List α
  | [] => [x]
  | y :: t => if lt y x then y :: insertSorted lt x t else x :: y :: t

/-- Stable sort by a strict precedence predicate. -/
def sortBy (lt : α → α → Bool) : List α → List α
  | [] => []
  | x :: t => insertSorted lt x (sortBy lt t)


/-! ## Database manager (provider_research/database/manager.py) -/

/-- Fuzzy-matching threshold constants of `ProviderDatabaseManager`. -/
def HIGH_CONFIDENCE_THRESHOLD : ℚ := mkRat 85 100

/-- Medium fuzzy-matching threshold. -/
def MEDIUM_CONFIDENCE_THRESHOLD : ℚ := mkRat 70 100

/-- Low-confidence floor for fuzzy matches. -/
def LOW_CONFIDENCE_THRESHOLD : ℚ := mkRat 50 100

/-- One row of the `provider_history` table. -/
structure HistoryRow where
  id : String
  provider_id : String
  change_type : String
  field_name : String
  old_value : Option String := none
  new_value : Option String := none
  effective_date : Int := 0
  source : String := "user_input"
  notes : Option String := none
  recorded_at : Int := 0
  recorded_by : Option String := none
  deriving Repr, DecidableEq

/-- The relational store: `providers` and `provider_history` tables as row lists. -/
structure DB where
  providers : List ProviderRec := []
  history : List HistoryRow := []
  deriving Repr, DecidableEq

/-- `record_history`: INSERT one row into `provider_history`, returning its id.
The generated UUID and timestamps arrive inside `e`. -/
def record_history (db : DB) (e : HistoryRow) : DB × String :=
  ({ db with history := db.history ++ [e] }, e.id)

/-- Strict precedence for `ORDER BY effective_date DESC, recorded_at DESC`. -/
def historyBefore (a b : HistoryRow) : Bool :=
  decide (b.effective_date < a.effective_date) ||
    (decide (a.effective_date = b.effective_date) && decide (b.recorded_at < a.recorded_at))

/-- `get_provider_history`: all history rows of one provider, newest first. -/
def get_provider_history (db : DB) (provider_id : String) : List HistoryRow :=
  sortBy historyBefore (db.history.filter (fun h => h.provider_id = provider_id))

/-- Read one named column of a provider row (the dynamic `SELECT {field}`). -/
def getField (r : ProviderRec) (field : String) : Option String :=
  if field = "legal_name" then r.legal_name
  else if field = "parent_organization" then r.parent_organization
  else if field = "phone" then r.phone
  else if field = "address_full" then r.address_full
  else if field = "address_city" then r.address_city
  else if field = "address_state" then r.address_state
  else if field = "npi" then r.npi
  else none

/-- Write one named column of a provider row (the dynamic `UPDATE ... SET {field}`). -/
def setField (r : ProviderRec) (field : String) (v : String) : ProviderRec :=
  if field = "legal_name" then { r with legal_name := some v }
  else if field = "parent_organization" then { r with parent_organization := some v }
  else if field = "phone" then { r with phone := some v }
  else if field = "address_full" then { r with address_full := some v }
  else if field = "address_city" then { r with address_city := some v }
  else if field = "address_state" then { r with address_state := some v }
  else if field = "npi" then { r with npi := some v }
  else r

/-- `update_provider_with_history`: read the old value, append the history row,
then update the provider field; `false` when the provider does not exist. -/
def update_provider_with_history (db : DB) (provider_id field_name new_value change_type : String)
    (effective_date : Int) (source : String) (notes : Option String)
    (history_id : String) (now : Int) : DB × Bool :=
  match db.providers.find? (fun r => r.id = some provider_id) with
  | none => (db, false)
  | some row =>
    let old_value := getField row field_name
    let entry : HistoryRow :=
      { id := history_id, provider_id := provider_id, change_type := change_type
        field_name := field_name
        old_value := if truthy old_value then old_value else none
        new_value := some new_value, effective_date := effective_date
        source := source, notes := notes, recorded_at := now, recorded_by := none }
    let db1 := (record_history db entry).1
    let db2 := { db1 with
      providers := db1.providers.map fun r =>
        if r.id = some provider_id then setField r field_name new_value else r }
    (db2, true)

/-- `delete_provider`: DELETE FROM providers only; history is untouched. -/
def delete_provider (db : DB) (provider_id : String) : DB × Bool :=
  ({ db with providers := db.providers.filter (fun r => !(r.id = some provider_id)) },
   db.providers.any (fun r => r.id = some provider_id))

/-- `SearchResult` dataclass. -/
structure SearchResult where
  match_type : String
  match_score : ℚ
  provider : ProviderRec
  confidence : ℚ
  deriving Repr, DecidableEq

/-- Keyword arguments of `search` with their Python defaults. -/
structure SearchArgs where
  query : Option String := none
  state : Option String := none
  city : Option String := none
  npi : Option String := none
  phone : Option String := none
  parent_organization : Option String := none
  fuzzy : Bool := true
  limit : Nat := 10
  deriving Repr, DecidableEq

/-- The lookup tiers of `search`, in source priority order. -/
inductive Tier
  | npiT | phoneT | exactT | fulltextT | fuzzyT | listT
  deriving Repr, DecidableEq

/-- External engines the manager delegates to: `difflib.SequenceMatcher.ratio`
(`sim`) and the Postgres full-text rank (`ts_match`, `none` when the document
does not match the query). -/
structure DbOracles where
  sim : String → String → ℚ
  ts_match : String → String → Option ℚ

/-- SQL `AND address_state = %s`, added only when the filter is truthy. -/
def stateFilter (state : Option String) (row : ProviderRec) : Bool :=
  !truthy state || row.address_state = state

/-- SQL `AND address_city ILIKE '%city%'`. -/
def cityFilter (city : Option String) (row : ProviderRec) : Bool :=
  !truthy city || strIn (lowerStr (city.getD "")) (lowerStr (row.address_city.getD ""))

/-- SQL `AND parent_organization ILIKE '%parent%'`. -/
def parentFilter (parent_org : Option String) (row : ProviderRec) : Bool :=
  !truthy parent_org ||
    strIn (lowerStr (parent_org.getD "")) (lowerStr (row.parent_organization.getD ""))

/-- `_search_by_npi`: WHERE npi = %s, confidence 1.0. -/
def search_by_npi (db : DB) (npi : String) : List SearchResult :=
  (db.providers.filter (fun row => row.npi = some npi)).map
    (fun row => ⟨"exact_npi", 1, row, 1⟩)

/-- `_search_by_phone`: digits-only phone comparison, confidence 0.95. -/
def search_by_phone (db : DB) (phone : String) : List SearchResult :=
  let phone_normalized := digitsOf phone
  (db.providers.filter fun row =>
      match row.phone with
      | some p => digitsOf p = phone_normalized
      | none => false).map
    (fun row => ⟨"exact_phone", 1, row, mkRat 95 100⟩)

/-- `_search_exact`: case-insensitive substring on legal name, parent org or
DBA names, plus the optional filters; confidence 0.95. -/
def search_exact (db : DB) (query : String) (state city parent_org : Option String) :
    List SearchResult :=
  (db.providers.filter fun row =>
      (strIn (lowerStr query) (lowerStr (row.legal_name.getD "")) ||
       strIn (lowerStr query) (lowerStr (row.parent_organization.getD "")) ||
       row.dba_names.any (fun dba => strIn (lowerStr query) (lowerStr dba))) &&
      stateFilter state row && cityFilter city row && parentFilter parent_org row).map
    (fun row => ⟨"exact", 1, row, mkRat 95 100⟩)

/-- `_search_fulltext`: rows matched by the full-text engine, ranked
descending, confidence 0.85, score `min(rank * 2, 1)`. -/
def search_fulltext (O : DbOracles) (db : DB) (query : String) (state city : Option String) :
    List SearchResult :=
  let scored := db.providers.filterMap fun row =>
    if stateFilter state row && cityFilter city row then
      (O.ts_match query ((row.legal_name.getD "") ++ " " ++ (row.parent_organization.getD ""))).map
        (fun rank => (rank, row))
    else none
  (sortBy (fun x y => decide (y.1 < x.1)) scored).map
    (fun p => ⟨"fulltext", min (p.1 * 2) 1, p.2, mkRat 85 100⟩)

/-- `_score_to_confidence`: bucket a similarity ratio into 0.9 / 0.7 / 0.5. -/
def score_to_confidence (score : ℚ) : ℚ :=
  if HIGH_CONFIDENCE_THRESHOLD ≤ score then mkRat 9 10
  else if MEDIUM_CONFIDENCE_THRESHOLD ≤ score then mkRat 7 10
  else mkRat 5 10

/-- `_search_fuzzy`: similarity against legal name and parent org, keeping only
scores at or above the low-confidence floor, sorted by score descending. -/
def search_fuzzy (O : DbOracles) (db : DB) (query : String)
    (state city parent_org : Option String) : List SearchResult :=
  let rows := db.providers.filter fun row =>
    stateFilter state row && cityFilter city row && parentFilter parent_org row
  let results := rows.filterMap fun row =>
    let legal_name := row.legal_name.getD ""
    let parent := row.parent_organization.getD ""
    let name_score := O.sim (lowerStr query) (lowerStr legal_name)
    let parent_score := if parent ≠ "" then O.sim (lowerStr query) (lowerStr parent) else 0
    let max_score := max name_score parent_score
    if LOW_CONFIDENCE_THRESHOLD ≤ max_score then
      some (⟨"fuzzy", max_score, row, score_to_confidence max_score⟩ : SearchResult)
    else none
  sortBy (fun x y => decide (y.match_score < x.match_score)) results

/-- `_list_providers`: filtered listing, weak match kind, confidence 0.5. -/
def list_providers (db : DB) (state city parent_org : Option String) (limit : Nat) :
    List SearchResult :=
  ((db.providers.filter fun row =>
      stateFilter state row && cityFilter city row && parentFilter parent_org row).take
    limit).map (fun row => ⟨"list", mkRat 5 10, row, mkRat 5 10⟩)

/-- `search`: the five-tier cascade with listing fallback.  Besides the results
it reports which tiers were consulted, in order. -/
def search (O : DbOracles) (db : DB) (a : SearchArgs) : List SearchResult × List Tier :=
  let hit1 :=
    if truthy a.npi then
      let r := search_by_npi db (a.npi.getD "")
      if r.isEmpty then none else some (r.take a.limit)
    else none
  let consulted1 : List Tier := if truthy a.npi then [Tier.npiT] else []
  match hit1 with
  | some r => (r, consulted1)
  | none =>
    let hit2 :=
      if truthy a.phone then
        let r := search_by_phone db (a.phone.getD "")
        if r.isEmpty then none else some (r.take a.limit)
      else none
    let consulted2 := consulted1 ++ (if truthy a.phone then [Tier.phoneT] else [])
    match hit2 with
    | some r => (r, consulted2)
    | none =>
      if truthy a.query then
        let r3 := search_exact db (a.query.getD "") a.state a.city a.parent_organization
        if !r3.isEmpty then (r3.take a.limit, consulted2 ++ [Tier.exactT])
        else
          let r4 := search_fulltext O db (a.query.getD "") a.state a.city
          if !r4.isEmpty then (r4.take a.limit, consulted2 ++ [Tier.exactT, Tier.fulltextT])
          else if a.fuzzy then
            ((search_fuzzy O db (a.query.getD "") a.state a.city a.parent_organization).take
               a.limit,
             consulted2 ++ [Tier.exactT, Tier.fulltextT, Tier.fuzzyT])
          else
            (list_providers db a.state a.city a.parent_organization a.limit,
             consulted2 ++ [Tier.exactT, Tier.fulltextT, Tier.listT])
      else
        (list_providers db a.state a.city a.parent_organization a.limit,
         consulted2 ++ [Tier.listT])

/-! ## Semantic matcher (provider_research/core/semantic_matcher.py) -/

/-- The `filters` dictionary produced by query interpretation. -/
structure Filters where
  state : Option String := none
  city : Option String := none
  provider_type : Option String := none
  parent_organization : Option String := none
  deriving Repr, DecidableEq

/-- Python truthiness of the filters dictionary (vacuous-valued keys behave
exactly like absent keys in every use site). -/
def filtersTruthy (f : Filters) : Bool :=
  f.state.isSome || f.city.isSome || f.provider_type.isSome || f.parent_organization.isSome

/-- `SemanticMatch` dataclass. -/
structure SemanticMatch where
  provider_id : Option String := none
  provider_name : Option String := none
  match_score : ℚ
  match_type : String
  reasoning : String := ""
  confidence : ℚ
  deriving Repr, DecidableEq

/-- `KNOWN_ABBREVIATIONS`, in dictionary insertion order. -/
def KNOWN_ABBREVIATIONS : List (String × String) :=
  [("ck", "comfort keepers"), ("va", "visiting angels"), ("hi", "home instead"),
   ("bs", "brightstar"), ("brightstar", "brightstar care"), ("gcpreit", "gcp reit")]

/-- `_expand_abbreviations`: lowercase, then whole-word substitution of each
known abbreviation in table order (substituting when absent is the identity). -/
def expand_abbreviations (query : String) : String :=
  KNOWN_ABBREVIATIONS.foldl (fun cur p => replaceWord p.1 p.2 cur) (lowerStr query)

/-- `_rule_based_matching`: location filter, then the parent-org / legal-name /
DBA / reverse-substring pattern chain, sorted by score descending. -/
def rule_based_matching (query : String) (candidates : List ProviderRec)
    (location_filter : Filters) : List SemanticMatch :=
  let query_lower := lowerStr query
  let ms := candidates.filterMap fun candidate =>
    let legal_name := lowerStr (candidate.legal_name.getD "")
    let parent_org := lowerStr (candidate.parent_organization.getD "")
    let dba_names := candidate.dba_names
    let state_match := !truthy location_filter.state ||
      candidate.address_state = location_filter.state
    let city_match := !truthy location_filter.city ||
      strIn (lowerStr (location_filter.city.getD "")) (lowerStr (candidate.address_city.getD ""))
    if filtersTruthy location_filter && !(state_match && city_match) then none
    else
      let scored : Option (ℚ × String × String) :=
        if parent_org ≠ "" && strIn query_lower parent_org then
          some (mkRat 9 10, "parent_child",
            "Query \x27" ++ query ++ "\x27 matches parent organization \x27" ++ parent_org ++ "\x27")
        else if strIn query_lower legal_name then
          some (mkRat 95 100, "exact", "Query \x27" ++ query ++ "\x27 found in legal name")
        else if dba_names.any (fun dba => strIn query_lower (lowerStr dba)) then
          some (mkRat 85 100, "dba", "Query matches DBA name")
        else if legal_name ≠ "" && strIn legal_name query_lower then
          some (mkRat 9 10, "regional", "Legal name \x27" ++ legal_name ++ "\x27 is variant of query")
        else none
      scored.map fun s =>
        { provider_id := candidate.id, provider_name := candidate.legal_name
          match_score := s.1, match_type := s.2.1, reasoning := s.2.2, confidence := s.1 }
  sortBy (fun x y => decide (y.match_score < x.match_score)) ms

/-- `_simulate_semantic_matching`: the rule pass on the expanded query. -/
def simulate_semantic_matching (query : String) (candidates : List ProviderRec)
    (location_filter : Filters) : List SemanticMatch :=
  rule_based_matching (expand_abbreviations query) candidates location_filter

/-- Which internal passes of `match` ran, for the call-count properties. -/
inductive MPass
  | rulesPass | llmPass | simulatePass
  deriving Repr, DecidableEq

/-- `ProviderSemanticMatcher.match`: empty candidates short-circuit, then the
rule pass, then LLM (when a client is wired) or the simulation, all filtered
to the confidence threshold.  The second component records the passes run. -/
def semantic_match (llm : Option (String → List ProviderRec → Filters → List SemanticMatch))
    (query : String) (candidates : List ProviderRec)
    (location_filter : Option Filters := none) (threshold : ℚ := mkRat 7 10) :
    List SemanticMatch × List MPass :=
  if candidates.isEmpty then ([], [])
  else
    let lf := location_filter.getD {}
    let expanded_query := expand_abbreviations query
    let rule_matches := rule_based_matching expanded_query candidates lf
    if !rule_matches.isEmpty then
      (rule_matches.filter (fun m => threshold ≤ m.confidence), [MPass.rulesPass])
    else
      match llm with
      | some f =>
        ((f query candidates lf).filter (fun m => threshold ≤ m.confidence),
         [MPass.rulesPass, MPass.llmPass])
      | none =>
        ((simulate_semantic_matching query candidates lf).filter
            (fun m => threshold ≤ m.confidence),
         [MPass.rulesPass, MPass.simulatePass])

/-! ## Query interpreter (provider_query_interpreter.py, simulation mode) -/

/-- The ten intent labels of the `Intent` enum. -/
inductive Intent
  | search | add | compare | list | update | delete | clarify | research | verify | relate
  deriving Repr, DecidableEq

/-- `Intent(value)` on the JSON string (raises on unknown values, hence `Option`). -/
def intentOfString (s : String) : Option Intent :=
  if s = "search" then some .search
  else if s = "add" then some .add
  else if s = "compare" then some .compare
  else if s = "list" then some .list
  else if s = "update" then some .update
  else if s = "delete" then some .delete
  else if s = "clarify" then some .clarify
  else if s = "research" then some .research
  else if s = "verify" then some .verify
  else if s = "relate" then some .relate
  else none

/-- `ParsedQuery` dataclass. -/
structure ParsedQuery where
  intent : Intent
  providers : List ProviderRec := []
  filters : Filters := {}
  references_resolved : List (String × String) := []
  multi_step_plan : List String := []
  clarification_needed : Option String := none
  confidence : ℚ := 0
  raw_interpretation : String := ""
  deriving Repr, DecidableEq

/-- The JSON dictionary built by `_simulate_interpretation` (intent still a string). -/
structure SimInterp where
  intent : String
  providers : List ProviderRec
  filters : Filters
  references_resolved : List (String × String)
  multi_step_plan : List String
  clarification_needed : Option String
  confidence : ℚ
  reasoning : String
  deriving Repr, DecidableEq

/-- One conversation turn. -/
structure ConvTurn where
  role : String
  content : String
  deriving Repr, DecidableEq

/-- The `user_context` dictionary. -/
structure UserCtx where
  location : Option String := none
  previous_searches : List String := []
  deriving Repr, DecidableEq

/-- ASCII `[A-Z]`. -/
def asciiUpper (c : Char) : Bool := 'A' ≤ c && c ≤ 'Z'

/-- ASCII `[a-z]`. -/
def asciiLower (c : Char) : Bool := 'a' ≤ c && c ≤ 'z'

/-- Python `s.strip()`. -/
def pyStrip (s : String) : String :=
  ⟨((s.data.dropWhile isSpaceChar).reverse.dropWhile isSpaceChar).reverse⟩

/-- `re.search` for a literal pattern: first occurrence, returning `group(0)`. -/
def findLitGo (lit : List Char) : List Char → Option (List Char)
  | [] => if lit.isEmpty then some [] else none
  | s@(_ :: t) => if lit.isPrefixOf s then some lit else findLitGo lit t

/-- `re.search` for `lit` followed by an optional (greedy) `s`. -/
def findLitOptSGo (lit : List Char) : List Char → Option (List Char)
  | [] => none
  | s@(_ :: t) =>
    if lit.isPrefixOf s then
      match (s.drop lit.length).head? with
      | some c => if c = 's' then some (lit ++ ['s']) else some lit
      | none => some lit
    else findLitOptSGo lit t

/-- `re.search(r'ck\b', s)`. -/
def findCkGo : List Char → Option (List Char)
  | [] => none
  | s@(_ :: t) =>
    if "ck".data.isPrefixOf s && !isWordOpt (s.drop 2).head? then some "ck".data
    else findCkGo t

/-- The `provider_patterns` list of `_simulate_interpretation`, by index. -/
def provider_pattern_search (i : Nat) (ql : List Char) : Option (List Char) :=
  if i = 0 then findLitGo "home instead".data ql
  else if i = 1 then findLitOptSGo "comfort keeper".data ql
  else if i = 2 then findCkGo ql
  else if i = 3 then findLitOptSGo "visiting angel".data ql
  else if i = 4 then findLitGo "brightstar care".data ql
  else if i = 5 then findLitGo "gcp reit".data ql
  else none

/-- `re.search(r'\b([A-Z]{2})\b', s)`: first standalone two-capital-letter token. -/
def findStateGo : Option Char → List Char → Option (List Char)
  | _, [] => none
  | prev, a :: t =>
    (match t with
     | b :: rest =>
       if !isWordOpt prev && asciiUpper a && asciiUpper b && !isWordOpt rest.head? then
         some [a, b]
       else none
     | [] => none) <|> findStateGo (some a) t

/-- One `[A-Z][a-z]+` word at the head of `s`, with the remainder. -/
def cityWordAt (s : List Char) : Option (List Char × List Char) :=
  match s with
  | c :: t =>
    if asciiUpper c then
      let run := t.takeWhile asciiLower
      if run.isEmpty then none else some (c :: run, t.drop run.length)
    else none
  | [] => none

/-- Greedy `(?: [A-Z][a-z]+)*` extension after a city word. -/
def cityExtGo : Nat → List Char → List Char
  | 0, _ => []
  | fuel + 1, s =>
    match s with
    | ' ' :: rest =>
      match cityWordAt rest with
      | some w => (' ' :: w.1) ++ cityExtGo fuel w.2
      | none => []
    | _ => []

/-- `re.search(r'in ([A-Z][a-z]+(?: [A-Z][a-z]+)*)', s)`, returning `group(1)`. -/
def findCityGo : List Char → Option (List Char)
  | [] => none
  | s@(_ :: t) =>
    (if "in ".data.isPrefixOf s then
       match cityWordAt (s.drop 3) with
       | some w => some (w.1 ++ cityExtGo w.2.length w.2)
       | none => none
     else none) <|> findCityGo t

/-- First provider pattern (in list order) matching in an assistant turn. -/
def firstProviderPattern (ql : List Char) : Option (List Char) :=
  (List.range 6).findSome? (fun i => provider_pattern_search i ql)

/-- Pronoun loop of `_simulate_interpretation`: scan turns newest-first for an
assistant turn mentioning a known provider pattern. -/
def scanAssistantTurns : List ConvTurn → Option String
  | [] => none
  | turn :: rest =>
    if turn.role = "assistant" then
      match firstProviderPattern (lowerStr turn.content).data with
      | some m => some (titleCase ⟨m⟩)
      | none => scanAssistantTurns rest
    else scanAssistantTurns rest

/-- `_simulate_interpretation`: the deterministic interpreter used when no LLM
client is wired. -/
def simulate_interpretation (last_result : Option ProviderRec) (user_query : String)
    (conversation_history : List ConvTurn) (user_context : UserCtx) : SimInterp :=
  let query_lower := lowerStr user_query
  let intent :=
    if ["find", "search", "look for", "locate"].any (fun w => strIn w query_lower) then "search"
    else if ["add", "insert", "save", "store"].any (fun w => strIn w query_lower) then "add"
    else if ["compare", "vs", "versus", "difference"].any (fun w => strIn w query_lower) then
      "compare"
    else if ["list", "show all", "how many"].any (fun w => strIn w query_lower) then "list"
    else "search"
  let providers := (List.range 6).filterMap fun i =>
    (provider_pattern_search i query_lower.data).map fun m =>
      let nm : String := ⟨m⟩
      let nm := if nm = "ck" then "Comfort Keepers" else nm
      ({ name := some (titleCase nm), location := none } : ProviderRec)
  let filters : Filters := {}
  let filters := match findStateGo none user_query.data with
    | some st => { filters with state := some (⟨st⟩ : String) }
    | none => filters
  let filters := match findCityGo user_query.data with
    | some ct => { filters with city := some (⟨ct⟩ : String) }
    | none => filters
  let references_resolved : List (String × String) := []
  let step1 :=
    if strIn "near me" query_lower || strIn "local" query_lower then
      let user_location := user_context.location.getD ""
      let refs := references_resolved ++ [("near me", user_location)]
      if user_location ≠ "" && strIn "," user_location then
        match splitOnChar ',' user_location with
        | [c, st] => ({ filters with city := some (pyStrip c), state := some (pyStrip st) }, refs)
        | _ => (filters, refs)
      else (filters, refs)
    else (filters, references_resolved)
  let filters := step1.1
  let references_resolved := step1.2
  let step2 :=
    if ["their", "they", "them"].any (fun w => strIn w query_lower) then
      match scanAssistantTurns conversation_history.reverse with
      | some nm =>
        (references_resolved ++ [("their", nm)],
         if providers.isEmpty then providers ++ [{ name := some nm, location := none }]
         else providers)
      | none => (references_resolved, providers)
    else (references_resolved, providers)
  let references_resolved := step2.1
  let providers := step2.2
  let step3 :=
    if ["that", "this", "it"].any (fun w => strIn w query_lower) then
      match last_result with
      | some lr =>
        let ref_name := lr.name.getD "last result"
        (references_resolved ++ [("that", ref_name)],
         if intent = "add" && providers.isEmpty then
           providers ++ [{ name := some ref_name, location := none }]
         else providers)
      | none => (references_resolved, providers)
    else (references_resolved, providers)
  let references_resolved := step3.1
  let providers := step3.2
  let multi_step : List String :=
    if strIn "compare" query_lower && providers.length > 1 then
      let n0 := ((providers.get? 0).bind (·.name)).getD ""
      let n1 := ((providers.get? 1).bind (·.name)).getD ""
      ["Step 1: Search for " ++ n0, "Step 2: Search for " ++ n1,
       "Step 3: Compare locations, coverage, services"]
    else []
  let clarification : Option String :=
    if providers.isEmpty && (intent = "search" || intent = "add") then
      some "Which provider are you looking for?"
    else if !truthy filters.state && intent = "list" then
      some "Which state would you like me to search in?"
    else none
  let confidence : ℚ := if !providers.isEmpty then mkRat 9 10 else mkRat 5 10
  let n := providers.length
  { intent := intent, providers := providers, filters := filters
    references_resolved := references_resolved, multi_step_plan := multi_step
    clarification_needed := clarification, confidence := confidence
    reasoning := "Detected " ++ intent ++ " intent with " ++ toString n ++ " providers" }

/-- `_parse_llm_response` on the simulated dictionary: build the `ParsedQuery`
(`Intent(...)` raises on an unknown label, hence `Option`). -/
def parse_llm_response (sim : SimInterp) : Option ParsedQuery :=
  (intentOfString sim.intent).map fun i =>
    { intent := i, providers := sim.providers, filters := sim.filters
      references_resolved := sim.references_resolved, multi_step_plan := sim.multi_step_plan
      clarification_needed := sim.clarification_needed, confidence := sim.confidence
      raw_interpretation := sim.reasoning }

/-- `interpret` with no LLM client: simulate, then parse. -/
def interpret (last_result : Option ProviderRec) (user_query : String)
    (conversation_history : List ConvTurn := []) (user_context : UserCtx := {}) :
    Option ParsedQuery :=
  parse_llm_response
    (simulate_interpretation last_result user_query conversation_history user_context)

/-! ## Orchestrator (provider_research/core/orchestrator.py) -/

/-- `ExecutionPath` enum. -/
inductive ExecutionPath
  | db_hit | semantic | web_research | multi_step | clarification
  deriving Repr, DecidableEq

/-- The heterogeneous entries of `OrchestrationResult.providers`: plain
provider dictionaries, or the per-query comparison dictionaries built by
`_handle_compare_intent`. -/
inductive ProvidersEntry
  | single (p : ProviderRec)
  | comparison (query : Option String) (results : List ProviderRec)
  deriving Repr, DecidableEq

/-- `OrchestrationResult` (wall-clock time, token estimates, step strings and
the `raw_data` echo of ambient state are operational metadata and omitted). -/
structure OrchestrationResult where
  success : Bool
  execution_path : ExecutionPath
  intent : Intent
  providers : List ProvidersEntry
  message : String
  confidence : ℚ
  warnings : List String
  clarification_question : Option String := none
  deriving Repr, DecidableEq

/-- Ghost instrumentation: how often the semantic matcher and the web
researcher were invoked while handling one query. -/
structure Counts where
  matcher : Nat := 0
  researcher : Nat := 0
  deriving Repr, DecidableEq

/-- The skill boundary of the orchestrator.  Each stage may raise (the
`Except` error is the exception message); `auto_save` is the constructor flag. -/
structure Stages where
  interpret : String → Except String ParsedQuery
  db_search : SearchArgs → Except String (List SearchResult)
  matcher_match : String → List ProviderRec → Filters → ℚ → Except String (List SemanticMatch)
  web_research : String → Option String → Option String → Except String ResearchResult
  researcher_check_duplicate : ProviderRec → ProviderRec → Except String DeduplicationResult
  add_provider : ProviderRec → Except String String
  auto_save : Bool := false

/-- `_build_error_response`. -/
def build_error_response (error : String) : OrchestrationResult :=
  { success := false, execution_path := .clarification, intent := .clarify, providers := []
    message := "Error processing query: " ++ error, confidence := 0, warnings := [error]
    clarification_question := none }

/-- `_build_clarification_response`. -/
def build_clarification_response (parsed : ParsedQuery) : OrchestrationResult :=
  { success := false, execution_path := .clarification, intent := parsed.intent, providers := []
    message := "Need clarification before proceeding", confidence := parsed.confidence
    warnings := [], clarification_question := parsed.clarification_needed }

/-- `providers[0]` of the parsed query (callers have checked non-emptiness). -/
def firstProvider (parsed : ParsedQuery) : ProviderRec := parsed.providers.headD {}

/-- `provider_query.get('name', '')` for the search path. -/
def pnameOf (parsed : ParsedQuery) : String := (firstProvider parsed).name.getD ""

/-- The argument dictionary of the first database search of the search path. -/
def mkDbArgs (parsed : ParsedQuery) : SearchArgs :=
  { query := some (pnameOf parsed), state := parsed.filters.state, city := parsed.filters.city
    parent_organization := parsed.filters.parent_organization, fuzzy := true }

/-- The Layer-1 database lookup of `_handle_search_intent`. -/
def dbStage (S : Stages) (parsed : ParsedQuery) : Except String (List SearchResult) :=
  S.db_search (mkDbArgs parsed)

/-- `db_results and db_results[0].confidence >= 0.85`. -/
def dbShortCircuit (rs : List SearchResult) : Bool :=
  match rs with
  | [] => false
  | r :: _ => decide ((mkRat 85 100 : ℚ) ≤ r.confidence)

/-- `semantic_matches and semantic_matches[0].confidence >= 0.8`. -/
def semShortCircuit (ms : List SemanticMatch) : Bool :=
  match ms with
  | [] => false
  | m :: _ => decide ((mkRat 8 10 : ℚ) ≤ m.confidence)

/-- Candidate records for semantic matching: the Layer-1 results, or a
filtered listing of up to 50 providers when Layer 1 found nothing. -/
def candidatesFrom (S : Stages) (parsed : ParsedQuery) (dbResults : List SearchResult) :
    Except String (List ProviderRec) :=
  if dbResults.isEmpty then
    (S.db_search { state := parsed.filters.state, limit := 50 }).map (·.map (·.provider))
  else .ok (dbResults.map (·.provider))

/-- Full provider records for the semantic matches: an NPI lookup per match,
falling back to a two-field dictionary when the lookup is empty. -/
def semanticProvidersE (S : Stages) (ms : List SemanticMatch) :
    Except String (List ProviderRec) :=
  ms.mapM fun m =>
    (S.db_search { npi := m.provider_id }).map fun rs =>
      match rs with
      | r :: _ => r.provider
      | [] => { id := m.provider_id, legal_name := m.provider_name }

/-- Confidence of the leading database result. -/
def headConf (rs : List SearchResult) : ℚ :=
  match rs with
  | [] => 0
  | r :: _ => r.confidence

/-- The short-circuit result of a high-confidence database hit. -/
def dbHitResult (parsed : ParsedQuery) (rs : List SearchResult) : OrchestrationResult :=
  let provs := rs.map (·.provider)
  let n := provs.length
  { success := true, execution_path := .db_hit, intent := parsed.intent
    providers := provs.map .single
    message := s!"Found {n} provider(s) in database"
    confidence := headConf rs, warnings := [] }

/-- The result of a successful semantic match. -/
def semanticResult (parsed : ParsedQuery) (ms : List SemanticMatch)
    (provs : List ProviderRec) : OrchestrationResult :=
  let n := provs.length
  { success := true, execution_path := .semantic, intent := parsed.intent
    providers := provs.map .single
    message := s!"Found {n} provider(s) via semantic matching"
    confidence := (match ms with | [] => 0 | m :: _ => m.confidence), warnings := [] }

/-- The auto-save loop over researched locations: per location, a phone
lookup, a duplicate check against the first hit, and an insert when new. -/
def autoSaveE (S : Stages) (locations : List ProviderRec) :
    Except String (List ProviderRec) :=
  if !S.auto_save then .ok locations
  else
    locations.mapM fun loc => do
      let existing ← S.db_search { phone := loc.phone, limit := 1 }
      match existing with
      | ex :: _ => do
        let dup ← S.researcher_check_duplicate loc ex.provider
        if !dup.is_duplicate then
          let provider_id ← S.add_provider loc
          pure { loc with id := some provider_id }
        else pure loc
      | [] => do
        let provider_id ← S.add_provider loc
        pure { loc with id := some provider_id }

/-- The Layer 3-5 web-research step of `_handle_search_intent`. -/
def researchStep (S : Stages) (parsed : ParsedQuery) (c : Counts) :
    Except String OrchestrationResult × Counts :=
  let c := { c with researcher := c.researcher + 1 }
  match S.web_research (pnameOf parsed) (firstProvider parsed).location parsed.filters.state with
  | .error e => (.error e, c)
  | .ok rr =>
    if !rr.locations.isEmpty then
      match autoSaveE S rr.locations with
      | .error e => (.error e, c)
      | .ok locs =>
        let n := locs.length
        let message := s!"Found {n} location(s) via web research" ++
          (if S.auto_save then " (saved to database)"
           else " (not saved - use auto_save=True to save automatically)")
        (.ok { success := true, execution_path := .web_research, intent := parsed.intent
               providers := locs.map .single, message := message
               confidence := rr.confidence, warnings := rr.warnings }, c)
    else
      (.ok { success := false, execution_path := .web_research, intent := parsed.intent
             providers := []
             message := "Could not find \x27" ++ pnameOf parsed ++
               "\x27 in database or web research"
             confidence := 0, warnings := rr.warnings }, c)

/-- `_handle_search_intent`: the store → semantic → web cascade. -/
def handle_search_intent (S : Stages) (parsed : ParsedQuery) :
    Except String OrchestrationResult × Counts :=
  if parsed.providers.isEmpty then
    (.ok { success := false, execution_path := .clarification, intent := parsed.intent
           providers := [], message := "Could not identify which provider to search for"
           confidence := 0, warnings := ["No provider specified in query"]
           clarification_question := some "Which healthcare provider are you looking for?" },
     {})
  else
    match dbStage S parsed with
    | .error e => (.error e, {})
    | .ok dbResults =>
      if dbShortCircuit dbResults then (.ok (dbHitResult parsed dbResults), {})
      else
        match candidatesFrom S parsed dbResults with
        | .error e => (.error e, {})
        | .ok candidates =>
          if candidates.isEmpty then researchStep S parsed {}
          else
            match S.matcher_match (pnameOf parsed) candidates parsed.filters (mkRat 7 10) with
            | .error e => (.error e, { matcher := 1 })
            | .ok semantic_matches =>
              if semShortCircuit semantic_matches then
                match semanticProvidersE S semantic_matches with
                | .error e => (.error e, { matcher := 1 })
                | .ok provs =>
                  (.ok (semanticResult parsed semantic_matches provs), { matcher := 1 })
              else researchStep S parsed { matcher := 1 }

/-- `_handle_add_intent`. -/
def handle_add_intent (S : Stages) (parsed : ParsedQuery) :
    Except String OrchestrationResult × Counts :=
  if parsed.providers.isEmpty then
    (.ok { success := false, execution_path := .clarification, intent := parsed.intent
           providers := [], message := "No provider data specified to add"
           confidence := 0, warnings := ["No provider data to add"]
           clarification_question := some "What provider information should I add?" }, {})
  else
    let pd := firstProvider parsed
    let proceed : Except String OrchestrationResult :=
      (S.add_provider
          { legal_name := pd.name, address := pd.address, city := pd.city, state := pd.state
            phone := pd.phone, npi := pd.npi }).map fun provider_id =>
        { success := true, execution_path := .db_hit, intent := parsed.intent
          providers := [.single { pd with id := some provider_id }]
          message := s!"Successfully added provider to database (ID: {provider_id})"
          confidence := mkRat 95 100, warnings := [] }
    match S.db_search { query := some (pd.name.getD ""), phone := pd.phone, limit := 5 } with
    | .error e => (.error e, {})
    | .ok existing =>
      match existing with
      | ex :: _ =>
        (match S.researcher_check_duplicate pd ex.provider with
         | .error e => .error e
         | .ok dup =>
           if dup.is_duplicate then
             .ok { success := false, execution_path := .db_hit, intent := parsed.intent
                   providers := [.single ex.provider]
                   message := "Provider already exists in database: " ++ dup.reason
                   confidence := dup.confidence, warnings := [] }
           else proceed, {})
      | [] => (proceed, {})

/-- `_handle_compare_intent`. -/
def handle_compare_intent (S : Stages) (parsed : ParsedQuery) :
    Except String OrchestrationResult × Counts :=
  if parsed.providers.length < 2 then
    (.ok { success := false, execution_path := .clarification, intent := parsed.intent
           providers := [], message := "Need at least 2 providers to compare"
           confidence := 0, warnings := []
           clarification_question := some "Which providers would you like to compare?" }, {})
  else
    match (parsed.providers.take 5).mapM (fun p =>
        (S.db_search { query := p.name, state := parsed.filters.state, limit := 10 }).map
          fun results => ProvidersEntry.comparison p.name (results.map (·.provider))) with
    | .error e => (.error e, {})
    | .ok comparison_results =>
      let n := parsed.providers.length
      (.ok { success := true, execution_path := .multi_step, intent := parsed.intent
             providers := comparison_results
             message := s!"Comparison results for {n} providers"
             confidence := mkRat 85 100, warnings := [] }, {})

/-- `_handle_list_intent`. -/
def handle_list_intent (S : Stages) (parsed : ParsedQuery) :
    Except String OrchestrationResult × Counts :=
  let listArgs : SearchArgs :=
    { state := parsed.filters.state, city := parsed.filters.city
      parent_organization := parsed.filters.parent_organization, limit := 100 }
  match S.db_search listArgs with
  | .error e => (.error e, {})
  | .ok results =>
    let provs := results.map (·.provider)
    let n := provs.length
    (.ok { success := true, execution_path := .db_hit, intent := parsed.intent
           providers := provs.map .single
           message := s!"Found {n} providers matching filters"
           confidence := mkRat 9 10, warnings := [] }, {})

/-- The body of the `try` block of `process_query`: interpret, maybe ask for
clarification, then dispatch on intent. -/
def process_query_try (S : Stages) (user_query : String) :
    Except String OrchestrationResult × Counts :=
  match S.interpret user_query with
  | .error e => (.error e, {})
  | .ok parsed =>
    if truthy parsed.clarification_needed then (.ok (build_clarification_response parsed), {})
    else
      match parsed.intent with
      | .add => handle_add_intent S parsed
      | .compare => handle_compare_intent S parsed
      | .list => handle_list_intent S parsed
      | _ => handle_search_intent S parsed

/-- `process_query`: the `try`/`except` wrapper that converts any stage
exception into `_build_error_response`. -/
def process_query (S : Stages) (user_query : String) : OrchestrationResult × Counts :=
  match process_query_try S user_query with
  | (.ok r, c) => (r, c)
  | (.error e, c) => (build_error_response e, c)

/-! ## Derived stage views and concrete inputs used by the verification -/

/-- The phone-rule trigger of `_rule_based_deduplication`: both records carry
a nonempty normalized phone and the phones agree. -/
def samePhoneSignal (new existing : ProviderRec) : Bool :=
  let new_phone := normalize_phone (new.phone.getD "")
  let existing_phone := normalize_phone (existing.phone.getD "")
  new_phone ≠ "" && existing_phone ≠ "" && new_phone = existing_phone

/-- The semantic matches `_handle_search_intent` would compute: the Layer-1
lookup, the candidate selection, and the matcher call (empty when there are no
candidates, in which case the matcher is not invoked). -/
def semanticStageE (S : Stages) (parsed : ParsedQuery) : Except String (List SemanticMatch) :=
  match dbStage S parsed with
  | .error e => .error e
  | .ok dbResults =>
    match candidatesFrom S parsed dbResults with
    | .error e => .error e
    | .ok candidates =>
      if candidates.isEmpty then .ok []
      else S.matcher_match (pnameOf parsed) candidates parsed.filters (mkRat 7 10)

/-- Two candidate locations that differ only in the suite number. -/
def suiteLoc1 : ProviderRec := { id := some "L1", address := some "123 Main St Suite 100" }

/-- Second candidate location, suite 200 at the same street address. -/
def suiteLoc2 : ProviderRec := { id := some "L2", address := some "123 Main St Suite 200" }

/-- New record carrying both the registry identifier and a phone number. -/
def npiPhoneNew : ProviderRec :=
  { npi := some "1234567890", phone := some "(617) 555-0100" }

/-- Existing record with the same registry identifier and the same phone
digits under a different formatting. -/
def npiPhoneExisting : ProviderRec :=
  { id := some "P1", npi := some "1234567890", phone := some "617-555-0100" }

/-- Same-NPI pair without phone numbers, for the amended-claim witness. -/
def npiOnlyNew : ProviderRec := { npi := some "9998887776" }

/-- Existing half of the phone-free same-NPI pair. -/
def npiOnlyExisting : ProviderRec := { id := some "E1", npi := some "9998887776" }

/-- Web-researcher wiring whose search function returns no URLs. -/
def noUrlCfg : WebResearcherCfg :=
  { web_search_fn := some (fun _ => []), fetch := fun _ => none }

/-- Web-researcher wiring with one URL that fails to fetch. -/
def oneUrlCfg : WebResearcherCfg :=
  { web_search_fn := some (fun _ => ["https://one.example"]), fetch := fun _ => none }

/-- Oracles for the manager witnesses: equality similarity, no full-text hits. -/
def witOracles : DbOracles :=
  { sim := fun a b => if a = b then 1 else 0, ts_match := fun _ _ => none }

/-- One stored provider row used by the manager witnesses. -/
def witRow : ProviderRec :=
  { id := some "R1", npi := some "1112223334", legal_name := some "acme" }

/-- Store holding only `witRow`. -/
def witDb : DB := { providers := [witRow], history := [] }

/-- Search arguments carrying the stored registry identifier. -/
def witNpiArgs : SearchArgs := { query := some "other", npi := some "1112223334" }

/-- Two history rows for provider `p1`. -/
def witHist1 : HistoryRow :=
  { id := "h1", provider_id := "p1", change_type := "name_change", field_name := "legal_name" }

/-- Second history row for provider `p1`. -/
def witHist2 : HistoryRow :=
  { id := "h2", provider_id := "p1", change_type := "ownership_change"
    field_name := "parent_organization" }

/-- Stage functions whose store lookup returns one confidence-1 result. -/
def hitStages : Stages :=
  { interpret := fun _ => .error "unused"
    db_search := fun _ => .ok [⟨"exact_npi", 1, witRow, 1⟩]
    matcher_match := fun _ _ _ _ => .ok []
    web_research := fun _ _ _ => .ok (empty_result "" [])
    researcher_check_duplicate := fun _ _ => .ok (simulate_deduplication {} {})
    add_provider := fun _ => .ok "id" }

/-- A parsed search query naming one provider. -/
def searchParsed : ParsedQuery := { intent := .search, providers := [{ name := some "Acme" }] }

/-- Stage functions whose interpreter raises. -/
def raisingStages : Stages :=
  { interpret := fun _ => .error "boom"
    db_search := fun _ => .ok []
    matcher_match := fun _ _ _ _ => .ok []
    web_research := fun _ _ _ => .ok (empty_result "" [])
    researcher_check_duplicate := fun _ _ => .ok (simulate_deduplication {} {})
    add_provider := fun _ => .ok "id" }

/-! ## Theorems -/

theorem insertSorted_perm (lt : α → α → Bool) (x : α) (l : List α) :
    List.Perm (insertSorted lt x l) (x :: l) := by
  induction l with
  | nil => exact .refl _
  | cons y t ih =>
    simp only [insertSorted]
    split
    · exact (ih.cons y).trans (List.Perm.swap x y t)
    · exact .refl _

theorem sortBy_perm (lt : α → α → Bool) (l : List α) : List.Perm (sortBy lt l) l := by
  induction l with
  | nil => exact .refl _
  | cons x t ih => exact (insertSorted_perm lt x (sortBy lt t)).trans (ih.cons x)

theorem mem_sortBy {lt : α → α → Bool} {x : α} {l : List α} :
    x ∈ sortBy lt l ↔ x ∈ l := (sortBy_perm lt l).mem_iff

theorem length_sortBy {lt : α → α → Bool} {l : List α} :
    (sortBy lt l).length = l.length := (sortBy_perm lt l).length_eq

/-- Claim C10: calling the semantic matcher with an empty candidate list
returns the empty list immediately, for every query, location filter and
threshold, with no rule-based pass and no model-assisted (or simulated) pass
run — the result does not depend on the wired model client at all. -/
theorem c10_semantic_match_empty_candidates
    (llm : Option (String → List ProviderRec → Filters → List SemanticMatch))
    (query : String) (location_filter : Option Filters) (threshold : ℚ) :
    semantic_match llm query [] location_filter threshold = ([], []) := rfl

/-- Claim C9: interpreting "Find Home Instead in Boston, MA" with an empty
conversation history and user location context "New York, NY" yields intent
search, exactly one provider named "Home Instead", state filter MA and no
clarification; the result coincides with the no-location-context result, so
the caller location context is not consulted (the query has no near-me or
local reference). -/
theorem c9_interpret_home_instead_boston :
    interpret none "Find Home Instead in Boston, MA" [] { location := some "New York, NY" } =
      some { intent := .search
             providers := [{ name := some "Home Instead", location := none }]
             filters := { state := some "MA", city := some "Boston" }
             references_resolved := []
             multi_step_plan := []
             clarification_needed := none
             confidence := mkRat 9 10
             raw_interpretation := "Detected search intent with 1 providers" } ∧
    interpret none "Find Home Instead in Boston, MA" [] {} =
      interpret none "Find Home Instead in Boston, MA" [] { location := some "New York, NY" } :=
  ⟨rfl, rfl⟩

/-- Claim C4: the two address-comparison functions are not equivalent.  On
two addresses differing only in the suite number, the web researcher's
normalization removes the suite token and identifies them (its deduplication
keeps only the first), while the research-LLM obvious-duplicate normalization
preserves the suite number and keeps them distinct (its pass reports no
duplicates). -/
theorem c4_address_normalizations_disagree :
    normalize_address "123 Main St Suite 100" = normalize_address "123 Main St Suite 200" ∧
    obvious_normalize_address "123 Main St Suite 100" ≠
      obvious_normalize_address "123 Main St Suite 200" ∧
    deduplicate_locations [suiteLoc1, suiteLoc2] = [suiteLoc1] ∧
    find_obvious_duplicates [suiteLoc1, suiteLoc2] = [] := by
  refine ⟨rfl, by decide, rfl, rfl⟩

/-- Counterexample to claim C3 as stated: on a pair sharing both the registry
identifier and the phone number, `check_duplicate` returns the phone verdict
with confidence 0.95, not the registry-identifier verdict with confidence 1.0. -/
theorem c3_phone_rule_preempts_npi
    : check_duplicate none npiPhoneNew npiPhoneExisting =
        { is_duplicate := true, reason := "Same phone number", confidence := mkRat 95 100
          matching_provider_id := some "P1" } ∧
      (check_duplicate none npiPhoneNew npiPhoneExisting).confidence ≠ 1 ∧
      npiPhoneNew.npi = npiPhoneExisting.npi := by
  refine ⟨rfl, by decide, rfl⟩

/-- Claim C3 (amended): every pair of candidate records carrying the same
nonempty registry identifier is judged a duplicate by `check_duplicate`; the
verdict is the registry-identifier one (reason "Same NPI", confidence 1.0)
unless both records also carry the same nonempty normalized phone, in which
case the phone rule, checked first in the source, supplies the verdict
(reason "Same phone number", confidence 0.95, still a duplicate).  The
identifier rule is consulted before any address or city signal. -/
theorem c3_same_npi_is_duplicate
    (judge : Option (ProviderRec → ProviderRec → LlmDedupJudgment))
    (new existing : ProviderRec) (n : String)
    (h1 : new.npi = some n) (h2 : n ≠ "") (h3 : existing.npi = some n) :
    (check_duplicate judge new existing).is_duplicate = true ∧
    (samePhoneSignal new existing = false →
      check_duplicate judge new existing =
        { is_duplicate := true, reason := "Same NPI", confidence := 1
          matching_provider_id := existing.id }) ∧
    (samePhoneSignal new existing = true →
      check_duplicate judge new existing =
        { is_duplicate := true, reason := "Same phone number", confidence := mkRat 95 100
          matching_provider_id := existing.id }) := by
  have hni : n.isEmpty = false := by
    cases hni : n.isEmpty
    · rfl
    · exact absurd ((String.isEmpty_iff n).mp hni) h2
  have hC2 : (truthy new.npi && decide (new.npi = existing.npi)) = true := by
    rw [h1, h3]
    simp [truthy, hni]
  cases hp : samePhoneSignal new existing with
  | false =>
    have hp' := hp
    simp only [samePhoneSignal] at hp'
    have hcond : ¬ ((¬ normalize_phone (new.phone.getD "") = "" ∧
          ¬ normalize_phone (existing.phone.getD "") = "") ∧
        normalize_phone (new.phone.getD "") = normalize_phone (existing.phone.getD "")) := by
      intro hcon
      have hall : (decide (normalize_phone (new.phone.getD "") ≠ "") &&
          decide (normalize_phone (existing.phone.getD "") ≠ "") &&
          decide (normalize_phone (new.phone.getD "") =
            normalize_phone (existing.phone.getD ""))) = true := by
        simp [hcon.1.1, hcon.1.2, hcon.2]
      rw [hp'] at hall
      exact Bool.noConfusion hall
    have key : check_duplicate judge new existing =
        { is_duplicate := true, reason := "Same NPI", confidence := 1
          matching_provider_id := existing.id } := by
      simp [check_duplicate, rule_based_deduplication, hC2, hcond]
    exact ⟨by rw [key], fun _ => key, fun hcon => Bool.noConfusion hcon⟩
  | true =>
    have hp' := hp
    simp only [samePhoneSignal, Bool.and_eq_true, decide_eq_true_eq] at hp'
    have key : check_duplicate judge new existing =
        { is_duplicate := true, reason := "Same phone number", confidence := mkRat 95 100
          matching_provider_id := existing.id } := by
      simp [check_duplicate, rule_based_deduplication, hp'.1.1, hp'.1.2, hp'.2]
    exact ⟨by rw [key], fun hcon => Bool.noConfusion hcon, fun _ => key⟩

/-- Witness for the amended C3: a concrete phone-free same-NPI pair gets the
registry-identifier verdict with confidence 1.0. -/
theorem c3_same_npi_witness :
    (check_duplicate none npiOnlyNew npiOnlyExisting).is_duplicate = true ∧
    check_duplicate none npiOnlyNew npiOnlyExisting =
      { is_duplicate := true, reason := "Same NPI", confidence := 1
        matching_provider_id := some "E1" } :=
  ⟨(c3_same_npi_is_duplicate none npiOnlyNew npiOnlyExisting "9998887776" rfl
      (by decide) rfl).1,
   (c3_same_npi_is_duplicate none npiOnlyNew npiOnlyExisting "9998887776" rfl
      (by decide) rfl).2.1 (by decide)⟩

/-- The additive confidence score written out as one expression. -/
theorem calculate_confidence_formula (l : List ProviderRec) (n : List NpiRecord)
    (w : List String) :
    calculate_confidence l n w =
      min (mkRat 5 10 + (if l.isEmpty then 0 else mkRat 2 10)
        + (if n.isEmpty then 0 else mkRat 2 10)
        + (if w.isEmpty then mkRat 1 10 else 0)) 1 := by
  unfold calculate_confidence
  cases hl : l.isEmpty <;> cases hn : n.isEmpty <;> cases hw : w.isEmpty <;>
    simp [hl, hn, hw]

/-- Counterexample to claim C6 as stated: when the initial web search yields
no candidate URLs, `research` returns confidence 0.0 from `_empty_result`,
while the additive score at that point (no locations, no NPI records, one
warning) would be 0.5. -/
theorem c6_no_urls_confidence_zero :
    (research noUrlCfg "Home Instead" none none).confidence = 0 ∧
    calculate_confidence [] [] ["No web results found"] = mkRat 5 10 ∧
    (0 : ℚ) ≠ mkRat 5 10 := by
  refine ⟨rfl, by decide, by decide⟩

/-- Claim C6 (amended): for every research call whose web search yields at
least one candidate URL, the confidence of the returned result equals the
additive score — base 0.5, plus 0.2 if any locations were found, plus 0.2 if
any registry record matched, plus 0.1 if the warnings list is empty, capped
at 1.0; when the web search yields no URLs the result is the empty result
with confidence 0.0. -/
theorem c6_research_confidence_additive (cfg : WebResearcherCfg) (provider_name : String)
    (location state : Option String)
    (h : web_search cfg provider_name (pyOr location state) ≠ []) :
    (research cfg provider_name location state).confidence =
      min (mkRat 5 10
        + (if (research cfg provider_name location state).locations.isEmpty then 0
           else mkRat 2 10)
        + (if (research cfg provider_name location state).npi_records.isEmpty then 0
           else mkRat 2 10)
        + (if (research cfg provider_name location state).warnings.isEmpty then mkRat 1 10
           else 0)) 1 := by
  have hne : (web_search cfg provider_name (pyOr location state)).isEmpty = false := by
    cases hw : web_search cfg provider_name (pyOr location state)
    · exact absurd hw h
    · rfl
  simp only [research, hne, Bool.false_eq_true, if_false]
  rw [calculate_confidence_formula]

/-- Witness for the amended C6: one candidate URL that fails to fetch yields
no locations, no registry records, one warning, and confidence 0.5 = the
additive score. -/
theorem c6_additive_witness :
    (research oneUrlCfg "Acme" none none).confidence =
      min (mkRat 5 10
        + (if (research oneUrlCfg "Acme" none none).locations.isEmpty then 0 else mkRat 2 10)
        + (if (research oneUrlCfg "Acme" none none).npi_records.isEmpty then 0 else mkRat 2 10)
        + (if (research oneUrlCfg "Acme" none none).warnings.isEmpty then mkRat 1 10 else 0))
        1 :=
  c6_research_confidence_additive oneUrlCfg "Acme" none none (by decide)

/-- Folding `record_history` appends the recorded entries, in order. -/
theorem foldl_record_history (entries : List HistoryRow) (db : DB) :
    (entries.foldl (fun acc e => (record_history acc e).1) db).history =
      db.history ++ entries := by
  induction entries generalizing db with
  | nil => simp
  | cons e t ih =>
    simp only [List.foldl_cons]
    rw [ih]
    simp [record_history]

/-- Claim C5: history is append-only.  After N `record_history` operations for
one provider the read-back has exactly N entries more than before, the prior
history rows are preserved verbatim as a prefix, `update_provider_with_history`
only ever appends to the history table, and `delete_provider` leaves it
untouched — no operation mutates or deletes a previously written entry. -/
theorem c5_history_append_only (db : DB) (pid : String) (entries : List HistoryRow)
    (d : DB) (pid2 field_name new_value change_type : String) (eff : Int) (src : String)
    (nts : Option String) (hid : String) (now : Int) (pid3 : String)
    (h : ∀ e ∈ entries, e.provider_id = pid) :
    (entries.foldl (fun acc e => (record_history acc e).1) db).history =
      db.history ++ entries ∧
    (get_provider_history (entries.foldl (fun acc e => (record_history acc e).1) db)
        pid).length = (get_provider_history db pid).length + entries.length ∧
    d.history <+: (update_provider_with_history d pid2 field_name new_value change_type
        eff src nts hid now).1.history ∧
    (delete_provider d pid3).1.history = d.history := by
  refine ⟨foldl_record_history entries db, ?_, ?_, rfl⟩
  · unfold get_provider_history
    rw [length_sortBy, length_sortBy, foldl_record_history, List.filter_append]
    have hf : entries.filter (fun e => e.provider_id = pid) = entries :=
      List.filter_eq_self.mpr (fun e he => by simpa using h e he)
    simp [hf]
  · unfold update_provider_with_history
    cases hfind : d.providers.find? (fun r => r.id = some pid2) with
    | none => simp [hfind]
    | some row =>
      simp [hfind, record_history]

/-- Witness for C5: two recorded changes for provider `p1` on the empty store
yield a history of exactly the two new entries. -/
theorem c5_history_witness :
    (([witHist1, witHist2].foldl (fun acc e => (record_history acc e).1)
        ({} : DB)).history = ({} : DB).history ++ [witHist1, witHist2]) ∧
    (get_provider_history ([witHist1, witHist2].foldl
        (fun acc e => (record_history acc e).1) ({} : DB)) "p1").length =
      (get_provider_history ({} : DB) "p1").length + [witHist1, witHist2].length ∧
    ({} : DB).history <+: (update_provider_with_history ({} : DB) "p9" "legal_name" "New"
        "name_change" 0 "user_input" none "h9" 0).1.history ∧
    (delete_provider ({} : DB) "p9").1.history = ({} : DB).history :=
  c5_history_append_only {} "p1" [witHist1, witHist2] {} "p9" "legal_name" "New"
    "name_change" 0 "user_input" none "h9" 0 "p9" (by decide)

/-- Claim C2: for every search call whose arguments include a registry
identifier that is present in the store, the returned results are exactly the
exact-identifier tier (truncated to the limit) and only that tier is
consulted — regardless of what text query, state, city, phone or parent-org
arguments accompany the identifier; every returned result has match kind
"exact_npi" and confidence 1.0. -/
theorem c2_npi_tier_outranks_all (O : DbOracles) (db : DB) (a : SearchArgs) (n : String)
    (r : SearchResult)
    (h1 : a.npi = some n) (h2 : n ≠ "")
    (h3 : ∃ row ∈ db.providers, row.npi = some n)
    (hr : r ∈ (search O db a).1) :
    search O db a = ((search_by_npi db n).take a.limit, [Tier.npiT]) ∧
    r.match_type = "exact_npi" ∧ r.match_score = 1 ∧ r.confidence = 1 := by
  have hni : n.isEmpty = false := by
    cases hni : n.isEmpty
    · rfl
    · exact absurd ((String.isEmpty_iff n).mp hni) h2
  have htr : truthy a.npi = true := by
    rw [h1]
    simp [truthy, hni]
  have hres : (search_by_npi db n).isEmpty = false := by
    obtain ⟨row, hrow, hnpi⟩ := h3
    have hmem : row ∈ db.providers.filter (fun row => row.npi = some n) :=
      List.mem_filter.mpr ⟨hrow, by simp [hnpi]⟩
    have : (⟨"exact_npi", 1, row, 1⟩ : SearchResult) ∈ search_by_npi db n := by
      unfold search_by_npi
      exact List.mem_map.mpr ⟨row, hmem, rfl⟩
    cases hemp : (search_by_npi db n).isEmpty
    · rfl
    · exact absurd (List.isEmpty_iff.mp hemp) (List.ne_nil_of_mem this)
  have hsearch : search O db a = ((search_by_npi db n).take a.limit, [Tier.npiT]) := by
    unfold search
    rw [h1]
    simp only [Option.getD_some]
    rw [h1] at htr
    simp [htr, hres]
  refine ⟨hsearch, ?_⟩
  rw [hsearch] at hr
  have hr2 : r ∈ search_by_npi db n := List.mem_of_mem_take hr
  unfold search_by_npi at hr2
  obtain ⟨row, _, rfl⟩ := List.mem_map.mp hr2
  exact ⟨rfl, rfl, rfl⟩

/-- Witness for C2: the stored identifier 1112223334 short-circuits a search
that also carries a text query. -/
theorem c2_npi_witness :
    search witOracles witDb witNpiArgs =
      ((search_by_npi witDb "1112223334").take witNpiArgs.limit, [Tier.npiT]) ∧
    (⟨"exact_npi", 1, witRow, 1⟩ : SearchResult).match_type = "exact_npi" ∧
    (⟨"exact_npi", 1, witRow, 1⟩ : SearchResult).match_score = 1 ∧
    (⟨"exact_npi", 1, witRow, 1⟩ : SearchResult).confidence = 1 :=
  c2_npi_tier_outranks_all witOracles witDb witNpiArgs "1112223334"
    ⟨"exact_npi", 1, witRow, 1⟩ rfl (by decide) ⟨witRow, by decide, rfl⟩ (by decide)

/-- Claim C7: every match surfaced by the fuzzy tier has similarity ratio at
or above the low-confidence floor 0.50 (lower candidates are discarded), its
confidence is bucketed from the ratio (>= 0.85 gives 0.9, >= 0.70 gives 0.7,
otherwise 0.5), and therefore its confidence is at least 0.50 — for every
similarity oracle, store and query. -/
theorem c7_fuzzy_floor_and_buckets (O : DbOracles) (db : DB) (query : String)
    (state city parent_org : Option String) (r : SearchResult)
    (hr : r ∈ search_fuzzy O db query state city parent_org) :
    LOW_CONFIDENCE_THRESHOLD ≤ r.match_score ∧
    r.match_type = "fuzzy" ∧
    r.confidence = (if mkRat 85 100 ≤ r.match_score then mkRat 9 10
      else if mkRat 70 100 ≤ r.match_score then mkRat 7 10 else mkRat 5 10) ∧
    LOW_CONFIDENCE_THRESHOLD ≤ r.confidence := by
  unfold search_fuzzy at hr
  rw [mem_sortBy] at hr
  simp only [List.mem_filterMap] at hr
  obtain ⟨row, _, hcond⟩ := hr
  have core : ∀ (ms : ℚ) (prov : ProviderRec), LOW_CONFIDENCE_THRESHOLD ≤ ms →
      some (⟨"fuzzy", ms, prov, score_to_confidence ms⟩ : SearchResult) = some r →
      LOW_CONFIDENCE_THRESHOLD ≤ r.match_score ∧
      r.match_type = "fuzzy" ∧
      r.confidence = (if mkRat 85 100 ≤ r.match_score then mkRat 9 10
        else if mkRat 70 100 ≤ r.match_score then mkRat 7 10 else mkRat 5 10) ∧
      LOW_CONFIDENCE_THRESHOLD ≤ r.confidence := by
    intro ms prov hle heq
    injection heq with hinj
    subst hinj
    refine ⟨hle, rfl, rfl, ?_⟩
    unfold score_to_confidence
    split
    · exact (by decide : LOW_CONFIDENCE_THRESHOLD ≤ mkRat 9 10)
    · split
      · exact (by decide : LOW_CONFIDENCE_THRESHOLD ≤ mkRat 7 10)
      · exact (by decide : LOW_CONFIDENCE_THRESHOLD ≤ mkRat 5 10)
  split at hcond
  · split at hcond
    · exact core _ _ ‹_› hcond
    · exact absurd hcond (by simp)
  · split at hcond
    · exact core _ _ ‹_› hcond
    · exact absurd hcond (by simp)

/-- Witness for C7: with an equality similarity oracle the stored name "acme"
matches the query at ratio 1 and surfaces with confidence 0.9. -/
theorem c7_fuzzy_witness :
    LOW_CONFIDENCE_THRESHOLD ≤ (⟨"fuzzy", 1, witRow, mkRat 9 10⟩ : SearchResult).match_score ∧
    (⟨"fuzzy", 1, witRow, mkRat 9 10⟩ : SearchResult).match_type = "fuzzy" ∧
    (⟨"fuzzy", 1, witRow, mkRat 9 10⟩ : SearchResult).confidence =
      (if mkRat 85 100 ≤ (⟨"fuzzy", 1, witRow, mkRat 9 10⟩ : SearchResult).match_score
       then mkRat 9 10
       else if mkRat 70 100 ≤ (⟨"fuzzy", 1, witRow, mkRat 9 10⟩ : SearchResult).match_score
       then mkRat 7 10 else mkRat 5 10) ∧
    LOW_CONFIDENCE_THRESHOLD ≤ (⟨"fuzzy", 1, witRow, mkRat 9 10⟩ : SearchResult).confidence :=
  c7_fuzzy_floor_and_buckets witOracles witDb "Acme" none none none
    ⟨"fuzzy", 1, witRow, mkRat 9 10⟩ (by decide)

/-- Claim C1: cascade short-circuiting in `_handle_search_intent`.  When the
store lookup's top confidence is at least 0.85 the orchestrator returns the
database hit directly with the matcher and the researcher invoked zero times;
the matcher runs only when the store stage's top confidence is below 0.85
(or the store stage found nothing), and the researcher runs only when,
additionally, the semantic stage's top confidence is below 0.8 (or the
semantic stage produced nothing). -/
theorem c1_cascade_short_circuit (S : Stages) (parsed : ParsedQuery)
    (rs : List SearchResult) (ms : List SemanticMatch)
    (hp : parsed.providers.isEmpty = false)
    (hdb : dbStage S parsed = .ok rs)
    (hsem : semanticStageE S parsed = .ok ms) :
    (dbShortCircuit rs = true →
      handle_search_intent S parsed =
        (.ok (dbHitResult parsed rs), { matcher := 0, researcher := 0 })) ∧
    (1 ≤ (handle_search_intent S parsed).2.matcher → dbShortCircuit rs = false) ∧
    (1 ≤ (handle_search_intent S parsed).2.researcher →
      dbShortCircuit rs = false ∧ semShortCircuit ms = false) := by
  unfold semanticStageE at hsem
  simp only [hdb] at hsem
  cases hsc : dbShortCircuit rs with
  | true =>
    have hh : handle_search_intent S parsed =
        (.ok (dbHitResult parsed rs), { matcher := 0, researcher := 0 }) := by
      unfold handle_search_intent
      simp [hp, hdb, hsc]
    refine ⟨fun _ => hh, fun hm => ?_, fun hrm => ?_⟩
    · rw [hh] at hm
      exact absurd hm (by simp)
    · rw [hh] at hrm
      exact absurd hrm (by simp)
  | false =>
    cases hcand : candidatesFrom S parsed rs with
    | error e =>
      simp only [hcand] at hsem
      exact absurd hsem (by simp)
    | ok candidates =>
      simp only [hcand] at hsem
      cases hce : candidates.isEmpty with
      | true =>
        simp only [hce, if_true] at hsem
        obtain rfl : ([] : List SemanticMatch) = ms := by
          injection hsem
        exact ⟨fun hcon => Bool.noConfusion hcon, fun _ => rfl,
          fun _ => ⟨rfl, rfl⟩⟩
      | false =>
        simp only [hce, Bool.false_eq_true, if_false] at hsem
        cases hss : semShortCircuit ms with
        | true =>
          cases hsp : semanticProvidersE S ms with
          | error e =>
            have hh : handle_search_intent S parsed = (.error e, { matcher := 1 }) := by
              unfold handle_search_intent
              simp [hp, hdb, hsc, hcand, hce, hsem, hss, hsp]
            refine ⟨fun hcon => Bool.noConfusion hcon, fun _ => rfl, fun hrm => ?_⟩
            rw [hh] at hrm
            exact absurd hrm (by simp)
          | ok provs =>
            have hh : handle_search_intent S parsed =
                (.ok (semanticResult parsed ms provs), { matcher := 1 }) := by
              unfold handle_search_intent
              simp [hp, hdb, hsc, hcand, hce, hsem, hss, hsp]
            refine ⟨fun hcon => Bool.noConfusion hcon, fun _ => rfl, fun hrm => ?_⟩
            rw [hh] at hrm
            exact absurd hrm (by simp)
        | false =>
          exact ⟨fun hcon => Bool.noConfusion hcon, fun _ => rfl,
            fun _ => ⟨rfl, rfl⟩⟩

/-- Witness for C1: a store stage returning one confidence-1.0 result makes
the orchestrator answer from the database with zero matcher and researcher
invocations. -/
theorem c1_short_circuit_witness :
    handle_search_intent hitStages searchParsed =
      (.ok (dbHitResult searchParsed [⟨"exact_npi", 1, witRow, 1⟩]),
       { matcher := 0, researcher := 0 }) :=
  (c1_cascade_short_circuit hitStages searchParsed [⟨"exact_npi", 1, witRow, 1⟩] []
    rfl rfl rfl).1 (by decide)

/-- Claim C8: any exception escaping a stage inside `process_query` is caught
and converted into `_build_error_response`: a non-success result on the
clarification path with the failure description recorded as the only warning
— no stage failure propagates to the caller. -/
theorem c8_exceptions_are_caught (S : Stages) (user_query : String) (e : String) (c : Counts)
    (h : process_query_try S user_query = (.error e, c)) :
    process_query S user_query = (build_error_response e, c) ∧
    (process_query S user_query).1.success = false ∧
    (process_query S user_query).1.warnings = [e] ∧
    (process_query S user_query).1.execution_path = ExecutionPath.clarification ∧
    (process_query S user_query).1.intent = Intent.clarify ∧
    (process_query S user_query).1.message = "Error processing query: " ++ e := by
  have hq : process_query S user_query = (build_error_response e, c) := by
    unfold process_query
    rw [h]
  rw [hq]
  exact ⟨rfl, rfl, rfl, rfl, rfl, rfl⟩

/-- Witness for C8: an interpreter that raises "boom" yields the caught error
shape. -/
theorem c8_caught_witness :
    process_query raisingStages "Find X" =
      (build_error_response "boom", { matcher := 0, researcher := 0 }) ∧
    (process_query raisingStages "Find X").1.success = false ∧
    (process_query raisingStages "Find X").1.warnings = ["boom"] ∧
    (process_query raisingStages "Find X").1.execution_path = ExecutionPath.clarification ∧
    (process_query raisingStages "Find X").1.intent = Intent.clarify ∧
    (process_query raisingStages "Find X").1.message = "Error processing query: " ++ "boom" :=
  c8_exceptions_are_caught raisingStages "Find X" "boom" { matcher := 0, researcher := 0 } rfl
